import Mathlib

/-!
Verification of the HTTP task engine in `src/engine/shared/http.cpp`
(class `CHttpRequest` plus the shared-lock helpers).

The C++ code is shallowly embedded: each modelled function mirrors the
control flow of the corresponding source function, with machine sizes
(`size_t`) modelled as `Nat`, C `int` values that can be negative as `Int`,
byte buffers as `List Nat`, and nullable pointers as `Option`.  External
collaborators (file system, libcurl, the JSON parser) appear as explicit
parameters recording the outcome of each call the source makes.
-/

namespace Http

/-- The task states `HTTP_QUEUED`, `HTTP_RUNNING`, `HTTP_DONE`,
`HTTP_ERROR`, `HTTP_ABORTED` used by `http.cpp`. -/
inductive HttpState where
  | queued
  | running
  | done
  | error
  | aborted
deriving DecidableEq, Repr

/-- The request methods `REQUEST::GET/HEAD/POST/POST_JSON`. -/
inductive REQUEST where
  | get
  | head
  | post
  | postJson
deriving DecidableEq, Repr

/-- libcurl success code `CURLE_OK`. -/
def CURLE_OK : Nat := 0

/-- libcurl code `CURLE_ABORTED_BY_CALLBACK` (42), returned by
`curl_easy_perform` when a callback aborted the transfer. -/
def CURLE_ABORTED_BY_CALLBACK : Nat := 42

/-- `GetLockIndex` from http.cpp lines 23-30:
clamps an arbitrary `curl_lock_data` value to an index of the lock array
`gs_aLocks[CURL_LOCK_DATA_LAST + 1]`.  The value of the enum constant
`CURL_LOCK_DATA_LAST` depends on the curl version, so it is a parameter
`last` here. -/
def GetLockIndex (last : Nat) (Data : Int) : Int :=
  if ¬(0 ≤ Data ∧ Data < (last : Int)) then (last : Int) else Data

/-- Outcome mapping at the end of `CHttpRequest::RunImpl`
(http.cpp lines 221-233): `curl_easy_perform`'s return code is mapped to
`HTTP_DONE` on `CURLE_OK`, `HTTP_ABORTED` on `CURLE_ABORTED_BY_CALLBACK`,
and `HTTP_ERROR` on every other code. -/
def performOutcome (Ret : Nat) : HttpState :=
  if Ret ≠ CURLE_OK then
    (if Ret = CURLE_ABORTED_BY_CALLBACK then HttpState.aborted else HttpState.error)
  else
    HttpState.done

/-- The fields written by one invocation of
`CHttpRequest::ProgressCallback`, plus its return code. -/
structure ProgressUpdate where
  current : Nat
  size : Nat
  progress : Nat
  retCode : Int
deriving DecidableEq, Repr

/-- `CHttpRequest::ProgressCallback` (http.cpp lines 269-277): stores the
downloaded and total byte counts, stores the percentage
`(100 * DlCurr) / (DlTotal ? DlTotal : 1)`, and returns -1 (abort) when the
abort flag is set, 0 otherwise.  Byte counts are passed by curl as whole
numbers (typed `double` in C, exact in this range); they are modelled as
`Nat`, with the C ternary denominator `DlTotal ? DlTotal : 1` rendered
literally and the store into the `int` field `m_Progress` truncating the
quotient, i.e. `Nat` division. -/
def ProgressCallback (abort : Bool) (DlTotal DlCurr : Nat) : ProgressUpdate :=
  { current := DlCurr
    size := DlTotal
    progress := (100 * DlCurr) / (if DlTotal ≠ 0 then DlTotal else 1)
    retCode := if abort then -1 else 0 }

/-- The `while(m_BufferLength + DataSize > NewBufferSize) NewBufferSize *= 2;`
loop of `CHttpRequest::OnData` (http.cpp lines 245-248), doubling `New`
until it reaches `target = m_BufferLength + DataSize`.  The loop is entered
with `New = maximum(1024, m_BufferSize) > 0`; the `0 < New` guard only
makes the recursion well-founded and never fires on those inputs. -/
def growLoop (target New : Nat) : Nat :=
  if h : 0 < New ∧ New < target then growLoop target (New * 2) else New
termination_by target - New
decreasing_by
  omega

/-- The memory-sink fields of `CHttpRequest`: `m_pBuffer` (a nullable
pointer, carrying the bytes stored so far), `m_BufferSize` (capacity) and
`m_BufferLength`. -/
structure MemBuffer where
  pBuffer : Option (List Nat)
  BufferSize : Nat
  BufferLength : Nat
deriving DecidableEq, Repr

/-- The buffer of a freshly constructed `CHttpRequest`:
`m_pBuffer = nullptr`, `m_BufferSize = 0`, `m_BufferLength = 0`. -/
def emptyBuffer : MemBuffer :=
  { pBuffer := none, BufferSize := 0, BufferLength := 0 }

/-- The bytes held by the buffer (empty when the pointer is null). -/
def bufContent (b : MemBuffer) : List Nat := b.pBuffer.getD []

/-- The memory-sink branch of `CHttpRequest::OnData`
(http.cpp lines 236-257): a zero-length chunk returns immediately;
otherwise the capacity is grown to
`growLoop (m_BufferLength + DataSize) (maximum 1024 m_BufferSize)`,
`realloc` is called exactly when that changed the capacity (keeping the
old contents), and `mem_copy` appends the chunk at offset
`m_BufferLength`, which then advances by the chunk length. -/
def OnData (b : MemBuffer) (Data : List Nat) : MemBuffer :=
  if Data.length = 0 then b
  else
    let NewBufferSize := growLoop (b.BufferLength + Data.length) (max 1024 b.BufferSize)
    let pRealloc := if NewBufferSize ≠ b.BufferSize then some (bufContent b) else b.pBuffer
    { pBuffer := some (pRealloc.getD [] ++ Data)
      BufferSize := NewBufferSize
      BufferLength := b.BufferLength + Data.length }

/-- `CHttpRequest::Result` (http.cpp lines 316-326): the empty result
(null pointer, length 0) unless the task is a memory-sink task in state
`HTTP_DONE`, in which case the raw pointer `m_pBuffer` and
`m_BufferLength` are returned. -/
def Result (WriteToFile : Bool) (St : HttpState) (b : MemBuffer) :
    Option (List Nat) × Nat :=
  if WriteToFile = true ∨ St ≠ HttpState.done then (none, 0)
  else (b.pBuffer, b.BufferLength)

/-- `CHttpRequest::ResultJson` (http.cpp lines 328-338): returns no
document when `Result` yields a null pointer, and otherwise hands the
bytes and length to the external parser `json_parse` (abstracted as a
parameter; it may itself fail, returning `none`). -/
def ResultJson {α : Type} (json_parse : List Nat → Nat → Option α)
    (WriteToFile : Bool) (St : HttpState) (b : MemBuffer) : Option α :=
  match Result WriteToFile St b with
  | (none, _) => none
  | (some pResult, ResultLength) => json_parse pResult ResultLength

/-- `CHttpRequest::Header` (http.cpp lines 311-314): `curl_slist_append`
adds the new line at the END of the header list. -/
def Header (headers : List String) (pNameColonValue : String) : List String :=
  headers ++ [pNameColonValue]

/-- The transport options produced by the method-specific part of
`CHttpRequest::RunImpl` (http.cpp lines 198-216): whether `CURLOPT_NOBODY`
was set, whether `CURLOPT_POSTFIELDS` was set and with which body, and the
final header list passed to `CURLOPT_HTTPHEADER`. -/
structure CurlSetup where
  nobody : Bool
  bodyAttached : Bool
  postFields : Option (List Nat)
  httpheader : List String
deriving DecidableEq, Repr

/-- The `switch(m_Type)` of `CHttpRequest::RunImpl` followed by the
`CURLOPT_HTTPHEADER` setopt (http.cpp lines 198-216): GET sets nothing;
HEAD sets `CURLOPT_NOBODY`; POST and POST_JSON attach `m_pBody` via
`CURLOPT_POSTFIELDS`, POST_JSON additionally calling
`Header("Content-Type: application/json")` first. -/
def RunImplSetup (Typ : REQUEST) (pBody : Option (List Nat))
    (headers : List String) : CurlSetup :=
  match Typ with
  | REQUEST.get =>
    { nobody := false, bodyAttached := false, postFields := none, httpheader := headers }
  | REQUEST.head =>
    { nobody := true, bodyAttached := false, postFields := none, httpheader := headers }
  | REQUEST.post =>
    { nobody := false, bodyAttached := true, postFields := pBody, httpheader := headers }
  | REQUEST.postJson =>
    { nobody := false, bodyAttached := true, postFields := pBody
      httpheader := Header headers "Content-Type: application/json" }

/-- Outcomes of the external calls one execution of `CHttpRequest::Run`
makes: directory creation and file open in `BeforeInit`, handle creation
(`curl_easy_init`), the `curl_easy_perform` return code, the data chunks
the transport delivers during the transfer, and whether `io_close` fails
in `OnCompletion`. -/
structure RunEnv where
  makedirOk : Bool
  openOk : Bool
  handleCreated : Bool
  curlRet : Nat
  chunks : List (List Nat)
  closeFails : Bool
deriving DecidableEq, Repr

/-- `CHttpRequest::BeforeInit` (http.cpp lines 131-149): for a file-sink
task it fails when `fs_makedir_rec_for` fails or `io_open` fails; for a
memory-sink task it always succeeds. -/
def BeforeInit (WriteToFile : Bool) (env : RunEnv) : Bool :=
  if WriteToFile then env.makedirOk && env.openOk else true

/-- `CHttpRequest::OnCompletion` (http.cpp lines 279-295), given whether
the task writes to a file, whether `m_File` is a live handle, whether
`io_close` fails, and the incoming state.  Returns the state it settles on
and whether `fs_remove(m_aDestAbsolute)` was invoked. -/
def OnCompletion (WriteToFile fileOpen closeFails : Bool) (State : HttpState) :
    HttpState × Bool :=
  if WriteToFile then
    let State := if fileOpen && closeFails then HttpState.error else State
    if State = HttpState.error ∨ State = HttpState.aborted then (State, true)
    else (State, false)
  else (State, false)

/-- Observable trace of one `CHttpRequest::Run` execution. -/
structure RunOutcome where
  enteredRunning : Bool
  transferPerformed : Bool
  sinkChunks : List (List Nat)
  stateBeforeHook : HttpState
  finalState : HttpState
  fileRemoved : Bool
deriving DecidableEq, Repr

/-- `CHttpRequest::Run` (http.cpp lines 114-129) composed with `RunImpl`:
if `BeforeInit` fails, `FinalState = HTTP_ERROR` with no transfer; if the
curl handle is null, `RunImpl` returns `HTTP_ERROR` before setting
`m_State = HTTP_RUNNING`; otherwise `m_State = HTTP_RUNNING` is entered,
`curl_easy_perform` runs (routing each arriving chunk to the sink) and its
return code is mapped by `performOutcome`.  In every case the resulting
`FinalState` is passed through `OnCompletion`, whose result is published
as `m_State`.  After a successful `BeforeInit`, `m_File` is a live handle
exactly when the task writes to a file. -/
def Run (WriteToFile : Bool) (env : RunEnv) : RunOutcome :=
  if BeforeInit WriteToFile env = false then
    { enteredRunning := false
      transferPerformed := false
      sinkChunks := []
      stateBeforeHook := HttpState.error
      finalState := (OnCompletion WriteToFile false env.closeFails HttpState.error).1
      fileRemoved := (OnCompletion WriteToFile false env.closeFails HttpState.error).2 }
  else if env.handleCreated = false then
    { enteredRunning := false
      transferPerformed := false
      sinkChunks := []
      stateBeforeHook := HttpState.error
      finalState := (OnCompletion WriteToFile WriteToFile env.closeFails HttpState.error).1
      fileRemoved := (OnCompletion WriteToFile WriteToFile env.closeFails HttpState.error).2 }
  else
    { enteredRunning := true
      transferPerformed := true
      sinkChunks := env.chunks
      stateBeforeHook := performOutcome env.curlRet
      finalState :=
        (OnCompletion WriteToFile WriteToFile env.closeFails (performOutcome env.curlRet)).1
      fileRemoved :=
        (OnCompletion WriteToFile WriteToFile env.closeFails (performOutcome env.curlRet)).2 }

end Http

namespace Http

/-! ## Helper lemmas -/

theorem growLoop_ge (target New : Nat) (h : 0 < New) : target ≤ growLoop target New := by
  induction New using growLoop.induct target with
  | case1 New hc ih =>
    rw [growLoop, dif_pos hc]
    exact ih (by omega)
  | case2 New hc =>
    rw [growLoop, dif_neg hc]
    omega

theorem growLoop_pow (target New : Nat) : ∃ k, growLoop target New = New * 2 ^ k := by
  induction New using growLoop.induct target with
  | case1 New hc ih =>
    rw [growLoop, dif_pos hc]
    obtain ⟨k, hk⟩ := ih
    exact ⟨k + 1, by rw [hk]; ring⟩
  | case2 New hc =>
    exact ⟨0, by rw [growLoop, dif_neg hc]; ring⟩

theorem growLoop_le_self (target New : Nat) : New ≤ growLoop target New := by
  induction New using growLoop.induct target with
  | case1 New hc ih =>
    rw [growLoop, dif_pos hc]
    omega
  | case2 New hc =>
    rw [growLoop, dif_neg hc]

theorem OnData_nil (b : MemBuffer) : OnData b [] = b := by
  simp [OnData]

theorem OnData_content (b : MemBuffer) (Data : List Nat) :
    bufContent (OnData b Data) = bufContent b ++ Data := by
  unfold OnData
  by_cases h : Data.length = 0
  · rw [List.length_eq_zero] at h
    simp [h]
  · simp only [h, if_false]
    by_cases hr :
      growLoop (b.BufferLength + Data.length) (max 1024 b.BufferSize) ≠ b.BufferSize <;>
        simp [bufContent, hr]

theorem OnData_length (b : MemBuffer) (Data : List Nat) :
    (OnData b Data).BufferLength = b.BufferLength + Data.length := by
  unfold OnData
  by_cases h : Data.length = 0 <;> simp [h]

/-- Size invariant of the memory sink: the length fits the capacity and
the capacity is 0 or `1024 * 2 ^ k`. -/
def SizeInv (b : MemBuffer) : Prop :=
  b.BufferLength ≤ b.BufferSize ∧ (b.BufferSize = 0 ∨ ∃ k, b.BufferSize = 1024 * 2 ^ k)

theorem OnData_sizeInv (b : MemBuffer) (Data : List Nat) (hb : SizeInv b) :
    SizeInv (OnData b Data) := by
  by_cases h : Data.length = 0
  · simpa [OnData, h] using hb
  · unfold OnData SizeInv
    simp only [h, if_false]
    constructor
    · exact growLoop_ge _ _ (lt_of_lt_of_le (by norm_num) (le_max_left 1024 b.BufferSize))
    · right
      obtain ⟨k0, hk0⟩ : ∃ k0, max 1024 b.BufferSize = 1024 * 2 ^ k0 := by
        rcases hb.2 with h0 | ⟨k, hk⟩
        · exact ⟨0, by simp [h0]⟩
        · have h1024 : 1024 ≤ b.BufferSize := by
            rw [hk]
            exact Nat.le_mul_of_pos_right 1024 (Nat.pos_pow_of_pos k (by norm_num))
          exact ⟨k, by rw [max_eq_right h1024, hk]⟩
      obtain ⟨j, hj⟩ :=
        growLoop_pow (b.BufferLength + Data.length) (max 1024 b.BufferSize)
      exact ⟨k0 + j, by rw [hj, hk0]; ring⟩

theorem OnData_size_mono (b : MemBuffer) (Data : List Nat) :
    b.BufferSize ≤ (OnData b Data).BufferSize := by
  by_cases h : Data.length = 0
  · simp [OnData, h]
  · unfold OnData
    simp only [h, if_false]
    exact le_trans (le_max_right 1024 b.BufferSize) (growLoop_le_self _ _)

theorem OnData_size_pos (b : MemBuffer) (Data : List Nat) (h : Data ≠ []) :
    1024 ≤ (OnData b Data).BufferSize := by
  have hlen : ¬Data.length = 0 := by simpa [List.length_eq_zero] using h
  unfold OnData
  simp only [hlen, if_false]
  exact le_trans (le_max_left 1024 b.BufferSize) (growLoop_le_self _ _)

theorem foldl_OnData (chunks : List (List Nat)) :
    ∀ b : MemBuffer,
      bufContent (List.foldl OnData b chunks) = bufContent b ++ chunks.flatten ∧
      (List.foldl OnData b chunks).BufferLength =
        b.BufferLength + (chunks.map List.length).sum ∧
      (SizeInv b → SizeInv (List.foldl OnData b chunks)) ∧
      b.BufferSize ≤ (List.foldl OnData b chunks).BufferSize := by
  induction chunks with
  | nil => intro b; simp
  | cons c cs ih =>
    intro b
    obtain ⟨h1, h2, h3, h4⟩ := ih (OnData b c)
    refine ⟨?_, ?_, ?_, ?_⟩
    · rw [List.foldl_cons, h1, OnData_content]
      simp
    · rw [List.foldl_cons, h2, OnData_length]
      simp [Nat.add_assoc]
    · intro hb
      exact h3 (OnData_sizeInv b c hb)
    · exact le_trans (OnData_size_mono b c) h4

theorem foldl_OnData_all_nil (chunks : List (List Nat)) :
    ∀ b : MemBuffer, (∀ c ∈ chunks, c = []) → List.foldl OnData b chunks = b := by
  induction chunks with
  | nil => intro b _; rfl
  | cons c cs ih =>
    intro b h
    have hc : c = [] := h c (List.mem_cons_self c cs)
    rw [List.foldl_cons, hc, OnData_nil]
    exact ih b fun d hd => h d (List.mem_cons_of_mem c hd)

theorem foldl_OnData_size_pos (chunks : List (List Nat)) :
    ∀ b : MemBuffer, (∃ c ∈ chunks, c ≠ []) →
      1024 ≤ (List.foldl OnData b chunks).BufferSize := by
  induction chunks with
  | nil => intro b h; simp at h
  | cons c cs ih =>
    intro b h
    rw [List.foldl_cons]
    obtain ⟨d, hd, hdne⟩ := h
    rcases List.mem_cons.mp hd with rfl | hmem
    · exact le_trans (OnData_size_pos b d hdne) (foldl_OnData cs (OnData b d)).2.2.2
    · exact ih (OnData b c) ⟨d, hmem, hdne⟩

theorem performOutcome_cases (Ret : Nat) :
    (performOutcome Ret = HttpState.done ↔ Ret = CURLE_OK) ∧
    (performOutcome Ret = HttpState.aborted ↔ Ret = CURLE_ABORTED_BY_CALLBACK) ∧
    (Ret ≠ CURLE_OK → Ret ≠ CURLE_ABORTED_BY_CALLBACK →
      performOutcome Ret = HttpState.error) := by
  unfold performOutcome CURLE_OK CURLE_ABORTED_BY_CALLBACK
  by_cases h0 : Ret = 0 <;> by_cases h42 : Ret = 42 <;> simp [h0, h42]

/-! ## Claim theorems -/

/-- C9: the lock-index function returns the value itself on the
recognized range `[0, CURL_LOCK_DATA_LAST)`, the fallback index
`CURL_LOCK_DATA_LAST` otherwise, and the result always lies within the
bounds of the lock array `gs_aLocks[CURL_LOCK_DATA_LAST + 1]`. -/
theorem GetLockIndex_spec (last : Nat) (Data : Int) :
    ((0 ≤ Data ∧ Data < (last : Int)) → GetLockIndex last Data = Data) ∧
    (¬(0 ≤ Data ∧ Data < (last : Int)) → GetLockIndex last Data = (last : Int)) ∧
    (0 ≤ GetLockIndex last Data ∧ GetLockIndex last Data ≤ (last : Int)) := by
  unfold GetLockIndex
  by_cases h : 0 ≤ Data ∧ Data < (last : Int)
  · refine ⟨fun _ => by simp [h], fun hc => absurd h hc, ?_⟩
    simp only [h, not_true_eq_false, if_false]
    exact ⟨h.1, le_of_lt h.2⟩
  · refine ⟨fun hc => absurd hc h, fun _ => by simp [h], ?_⟩
    simp only [h, not_false_eq_true, if_true]
    exact ⟨Int.ofNat_nonneg last, le_refl _⟩

/-- Witness for C9 at concrete inputs. -/
theorem GetLockIndex_spec_witness :
    GetLockIndex 6 3 = 3 ∧ GetLockIndex 6 (-1) = 6 := by
  refine ⟨(GetLockIndex_spec 6 3).1 (by decide), (GetLockIndex_spec 6 (-1)).2.1 (by decide)⟩

/-- C5: every progress update stores percentage `d * 100 / max t 1`; the
denominator is at least 1 (in particular 1 when the total is 0), and for
`d ≤ t` with `t > 0` the stored percentage is at most 100 (it is a `Nat`,
hence also at least 0). -/
theorem ProgressCallback_spec (abort : Bool) (t d : Nat) :
    (ProgressCallback abort t d).progress = d * 100 / max t 1 ∧
    1 ≤ (if t ≠ 0 then t else 1) ∧
    (t = 0 → (ProgressCallback abort t d).progress = d * 100 / 1) ∧
    (0 < t → d ≤ t → (ProgressCallback abort t d).progress ≤ 100) := by
  unfold ProgressCallback
  rcases Nat.eq_zero_or_pos t with ht | ht
  · subst ht
    simp [Nat.mul_comm]
  · have hne : t ≠ 0 := Nat.pos_iff_ne_zero.mp ht
    have hmax : max t 1 = t := max_eq_left ht
    refine ⟨?_, ?_, ?_, ?_⟩
    · simp [hne, hmax, Nat.mul_comm]
    · simpa [hne] using ht
    · intro h0; exact absurd h0 hne
    · intro _ hd
      simp only [hne, if_true, ne_eq, not_false_eq_true]
      calc 100 * d / t ≤ 100 * t / t := Nat.div_le_div_right (Nat.mul_le_mul_left 100 hd)
        _ ≤ 100 := Nat.le_of_eq (Nat.mul_div_cancel 100 ht)

/-- Witness for C5 at concrete inputs. -/
theorem ProgressCallback_spec_witness :
    (ProgressCallback false 0 7).progress = 7 * 100 / 1 ∧
    (ProgressCallback false 200 50).progress ≤ 100 := by
  exact ⟨(ProgressCallback_spec false 0 7).2.2.1 rfl,
    (ProgressCallback_spec false 200 50).2.2.2 (by decide) (by decide)⟩

/-- C1: for every task whose pre-flight succeeds and whose transport
handle is created, the state `Run` settles on before the completion hook
is determined by the transport outcome: DONE iff `CURLE_OK`, ABORTED iff
`CURLE_ABORTED_BY_CALLBACK`, ERROR for every other code — so an
abort-caused termination is never mapped like any other failure. -/
theorem Run_outcome_spec (WriteToFile : Bool) (env : RunEnv)
    (hpre : BeforeInit WriteToFile env = true) (hh : env.handleCreated = true) :
    ((Run WriteToFile env).stateBeforeHook = HttpState.done ↔ env.curlRet = CURLE_OK) ∧
    ((Run WriteToFile env).stateBeforeHook = HttpState.aborted ↔
      env.curlRet = CURLE_ABORTED_BY_CALLBACK) ∧
    (env.curlRet ≠ CURLE_OK → env.curlRet ≠ CURLE_ABORTED_BY_CALLBACK →
      (Run WriteToFile env).stateBeforeHook = HttpState.error) := by
  have h1 : (Run WriteToFile env).stateBeforeHook = performOutcome env.curlRet := by
    unfold Run
    simp [hpre, hh]
  rw [h1]
  exact performOutcome_cases env.curlRet

/-- Witness for C1 at a concrete successful transfer. -/
theorem Run_outcome_spec_witness :
    (Run false ⟨true, true, true, 0, [], false⟩).stateBeforeHook = HttpState.done :=
  ((Run_outcome_spec false ⟨true, true, true, 0, [], false⟩ rfl rfl).1).mpr rfl

/-- C2: the completion hook never turns a non-DONE state into DONE; an
incoming DONE survives exactly when the file-close step did not fail (for
a file sink with a live handle, `io_close` failing downgrades it to
ERROR); and for a file-sink task the file is deleted whenever the state
after the downgrade is ERROR or ABORTED, including when the close itself
failed. -/
theorem OnCompletion_spec (WriteToFile fileOpen closeFails : Bool) (State : HttpState) :
    ((OnCompletion WriteToFile fileOpen closeFails State).1 = HttpState.done →
      State = HttpState.done) ∧
    (State = HttpState.done →
      (OnCompletion WriteToFile fileOpen closeFails State).1 =
        (if WriteToFile && fileOpen && closeFails then HttpState.error
         else HttpState.done)) ∧
    (WriteToFile = true →
      ((OnCompletion WriteToFile fileOpen closeFails State).1 = HttpState.error ∨
       (OnCompletion WriteToFile fileOpen closeFails State).1 = HttpState.aborted) →
      (OnCompletion WriteToFile fileOpen closeFails State).2 = true) := by
  cases WriteToFile <;> cases fileOpen <;> cases closeFails <;> cases State <;> decide

/-- Witness for C2: file sink, close failure, incoming DONE — settles in
ERROR and the file is removed. -/
theorem OnCompletion_spec_witness :
    (OnCompletion true true true HttpState.done).1 = HttpState.error ∧
    (OnCompletion true true true HttpState.done).2 = true := by
  constructor
  · have h := (OnCompletion_spec true true true HttpState.done).2.1 rfl
    simpa using h
  · exact (OnCompletion_spec true true true HttpState.done).2.2 rfl (Or.inl (by decide))

/-- C4: when pre-flight sink preparation fails (directory creation or
file open fails for a file sink), `Run` settles directly in ERROR, the
RUNNING state is never entered, no transfer is started, and no bytes are
delivered to the sink. -/
theorem Run_preflight_spec (env : RunEnv)
    (h : env.makedirOk = false ∨ env.openOk = false) :
    (Run true env).finalState = HttpState.error ∧
    (Run true env).enteredRunning = false ∧
    (Run true env).transferPerformed = false ∧
    (Run true env).sinkChunks = [] := by
  have hb : BeforeInit true env = false := by
    unfold BeforeInit
    rcases h with h | h <;> simp [h]
  unfold Run
  rw [hb]
  simp [OnCompletion]

/-- Witness for C4 at a concrete failing directory creation. -/
theorem Run_preflight_spec_witness :
    (Run true ⟨false, true, true, 0, [], false⟩).finalState = HttpState.error :=
  (Run_preflight_spec ⟨false, true, true, 0, [], false⟩ (Or.inl rfl)).1

/-- C6: `Result` yields the empty result (null pointer, length 0) unless
the task uses the memory sink and is DONE, in which case it yields the
buffer pointer and buffer length; in particular a never-run task (state
QUEUED) yields the empty result. -/
theorem Result_spec (WriteToFile : Bool) (St : HttpState) (b : MemBuffer) :
    ((WriteToFile = true ∨ St ≠ HttpState.done) →
      Result WriteToFile St b = (none, 0)) ∧
    (WriteToFile = false → St = HttpState.done →
      Result WriteToFile St b = (b.pBuffer, b.BufferLength)) ∧
    (St = HttpState.queued → Result WriteToFile St b = (none, 0)) := by
  unfold Result
  refine ⟨fun h => by simp [h], fun hw hs => ?_, fun hq => ?_⟩
  · subst hw; subst hs; simp
  · subst hq; simp

/-- Witness for C6 at concrete tasks. -/
theorem Result_spec_witness :
    Result false HttpState.done ⟨some [1, 2], 1024, 2⟩ = (some [1, 2], 2) ∧
    Result false HttpState.queued ⟨some [1, 2], 1024, 2⟩ = (none, 0) :=
  ⟨(Result_spec false HttpState.done ⟨some [1, 2], 1024, 2⟩).2.1 rfl rfl,
   (Result_spec false HttpState.queued ⟨some [1, 2], 1024, 2⟩).2.2 rfl⟩

/-- C7 fails as stated: `Header` uses `curl_slist_append`, so the
`Content-Type: application/json` line is appended AFTER the caller's
headers, not prepended: with one caller header, the resulting list puts
the caller's header first. -/
theorem RunImplSetup_postJson_counterexample :
    (RunImplSetup REQUEST.postJson none ["X-Custom: 1"]).httpheader =
      ["X-Custom: 1", "Content-Type: application/json"] ∧
    (RunImplSetup REQUEST.postJson none ["X-Custom: 1"]).httpheader ≠
      ["Content-Type: application/json", "X-Custom: 1"] := by
  constructor
  · rfl
  · simp [RunImplSetup, Header]

/-- C7 (amended): for every POST-JSON task, execution setup appends the
`Content-Type: application/json` header at the end of the task's ordered
header list, after every header the caller added before execution. -/
theorem RunImplSetup_postJson_spec (pBody : Option (List Nat)) (headers : List String) :
    (RunImplSetup REQUEST.postJson pBody headers).httpheader =
      headers ++ ["Content-Type: application/json"] := rfl

/-- C8: a HEAD task never attaches a request body (regardless of any body
set beforehand) and sets `CURLOPT_NOBODY`; the body is attached only for
the POST and POST-JSON methods. -/
theorem RunImplSetup_head_spec (pBody : Option (List Nat)) (headers : List String) :
    (RunImplSetup REQUEST.head pBody headers).bodyAttached = false ∧
    (RunImplSetup REQUEST.head pBody headers).nobody = true ∧
    (RunImplSetup REQUEST.head pBody headers).postFields = none ∧
    (∀ Typ : REQUEST, (RunImplSetup Typ pBody headers).bodyAttached = true →
      Typ = REQUEST.post ∨ Typ = REQUEST.postJson) := by
  refine ⟨rfl, rfl, rfl, fun Typ h => ?_⟩
  cases Typ
  · exact absurd h (by simp [RunImplSetup])
  · exact absurd h (by simp [RunImplSetup])
  · exact Or.inl rfl
  · exact Or.inr rfl

/-- Witness for C8 at a concrete task with a body set beforehand. -/
theorem RunImplSetup_head_spec_witness :
    (RunImplSetup REQUEST.head (some [65]) ["X: y"]).bodyAttached = false ∧
    (REQUEST.post = REQUEST.post ∨ REQUEST.post = REQUEST.postJson) :=
  ⟨(RunImplSetup_head_spec (some [65]) ["X: y"]).1,
   (RunImplSetup_head_spec (some [65]) ["X: y"]).2.2.2 REQUEST.post rfl⟩

/-- C3: feeding any finite sequence of chunks through the memory sink
from the empty buffer yields exactly their concatenation, a length equal
to the sum of the chunk sizes, and a capacity that is at least the length
and is 0 (exactly when no non-empty chunk was delivered) or of the form
`1024 * 2 ^ k`. -/
theorem OnData_fold_spec (chunks : List (List Nat)) :
    bufContent (List.foldl OnData emptyBuffer chunks) = chunks.flatten ∧
    (List.foldl OnData emptyBuffer chunks).BufferLength =
      (chunks.map List.length).sum ∧
    (List.foldl OnData emptyBuffer chunks).BufferLength ≤
      (List.foldl OnData emptyBuffer chunks).BufferSize ∧
    ((List.foldl OnData emptyBuffer chunks).BufferSize = 0 ∨
      ∃ k, (List.foldl OnData emptyBuffer chunks).BufferSize = 1024 * 2 ^ k) ∧
    ((List.foldl OnData emptyBuffer chunks).BufferSize = 0 ↔
      ∀ c ∈ chunks, c = []) := by
  obtain ⟨h1, h2, h3, _⟩ := foldl_OnData chunks emptyBuffer
  have hinv : SizeInv (List.foldl OnData emptyBuffer chunks) :=
    h3 ⟨le_refl 0, Or.inl rfl⟩
  refine ⟨by simpa [bufContent, emptyBuffer] using h1,
    by simpa [emptyBuffer] using h2, hinv.1, hinv.2, ?_, ?_⟩
  · intro h0
    by_contra hall
    push_neg at hall
    obtain ⟨c, hc, hcne⟩ := hall
    have := foldl_OnData_size_pos chunks emptyBuffer ⟨c, hc, hcne⟩
    omega
  · intro hall
    rw [foldl_OnData_all_nil chunks emptyBuffer hall]
    rfl

/-- C10: a memory-sink task that reaches DONE having received only
zero-length data callbacks still has a null buffer pointer, so `Result`
yields the same empty result as for any state, and `ResultJson` yields no
document — an empty successful response is indistinguishable from an
unfinished or invalid one at the result interface. -/
theorem Result_empty_response_spec {α : Type} (json_parse : List Nat → Nat → Option α)
    (chunks : List (List Nat)) (h : ∀ c ∈ chunks, c = []) :
    (List.foldl OnData emptyBuffer chunks).pBuffer = none ∧
    Result false HttpState.done (List.foldl OnData emptyBuffer chunks) = (none, 0) ∧
    (∀ St, Result false St (List.foldl OnData emptyBuffer chunks) = (none, 0)) ∧
    ResultJson json_parse false HttpState.done
      (List.foldl OnData emptyBuffer chunks) = none := by
  have hb : List.foldl OnData emptyBuffer chunks = emptyBuffer :=
    foldl_OnData_all_nil chunks emptyBuffer h
  rw [hb]
  refine ⟨rfl, by simp [Result, emptyBuffer], fun St => ?_, ?_⟩
  · cases St <;> simp [Result, emptyBuffer]
  · simp [ResultJson, Result, emptyBuffer]

/-- Witness for C10 at two concrete zero-length callbacks, with a parser
that succeeds on every input. -/
theorem Result_empty_response_spec_witness :
    Result false HttpState.done (List.foldl OnData emptyBuffer [[], []]) = (none, 0) ∧
    ResultJson (fun (bytes : List Nat) (len : Nat) => some (bytes, len)) false
      HttpState.done (List.foldl OnData emptyBuffer [[], []]) = none :=
  ⟨(Result_empty_response_spec (fun (bytes : List Nat) (len : Nat) => some (bytes, len))
      [[], []] (by decide)).2.1,
   (Result_empty_response_spec (fun (bytes : List Nat) (len : Nat) => some (bytes, len))
      [[], []] (by decide)).2.2.2⟩

end Http
